import Mathlib

/-!
# Verification of the spherical harmonics gravity field model

Shallow embedding of
`Astrodynamics/EnvironmentModels/GravityFieldModel/sphericalHarmonicsGravityField.cpp`
(Tudat). Doubles are modelled as real numbers, Eigen `Vector3d` as
`Fin 3 → ℝ`, Eigen `Matrix3d` as `Matrix (Fin 3) (Fin 3) ℝ`. The C++
methods mutate the instance field `relativePosition_`; they are embedded
as functions returning the result value together with the updated object
state.
-/

namespace Tudat

/-- Euclidean squared norm of a 3-vector, Eigen's `squaredNorm()`. -/
def squaredNorm (v : Fin 3 → ℝ) : ℝ :=
  v 0 * v 0 + v 1 * v 1 + v 2 * v 2

/-- Euclidean norm of a 3-vector, Eigen's `norm()`. -/
noncomputable def vectorNorm (v : Fin 3 → ℝ) : ℝ :=
  Real.sqrt (squaredNorm v)

/-- Modelled from the spec: `mathematics::raiseToIntegerPower` is declared in
`basicMathematicsFunctions.h`, which is not part of the sources at hand; the
spec requires integer powers to be "computed as repeated multiplication",
i.e. the exact `n`-th power. -/
def raiseToIntegerPower (base : ℝ) (integerPower : ℕ) : ℝ :=
  base ^ integerPower

/-- Enumeration of bodies with predefined gravity-field coefficient sets.
Modelled from the spec: the enumeration itself is declared in the header
`sphericalHarmonicsGravityField.h`, which is not among the sources at hand;
the spec describes "a small closed enumeration of named presets (currently
two: Earth WGS-72, Earth WGS-84)".  The C++ `switch` in the source carries a
`default` branch, and a C++ enumeration object may hold values other than the
named enumerators, so the embedding adds a constructor standing for any such
unrecognized identifier. -/
inductive BodiesWithPredefinedSphericalHarmonicsGravityFields where
  | earthWorldGeodeticSystem72 : BodiesWithPredefinedSphericalHarmonicsGravityFields
  | earthWorldGeodeticSystem84 : BodiesWithPredefinedSphericalHarmonicsGravityFields
  | unrecognizedBody : ℤ → BodiesWithPredefinedSphericalHarmonicsGravityFields
deriving DecidableEq

/-- The state of a `SphericalHarmonicsGravityField` object.  The fields
`gravitationalParameter_` and `positionOfOrigin_` are inherited from the base
class `GravityFieldModel`; `relativePosition_` is the instance-owned scratch
value overwritten by each evaluation call. -/
structure SphericalHarmonicsGravityField where
  gravitationalParameter_ : ℝ
  positionOfOrigin_ : Fin 3 → ℝ
  relativePosition_ : Fin 3 → ℝ
  degreeOfExpansion_ : ℕ
  orderOfExpansion_ : ℕ
  referenceRadius_ : ℝ
  j2SphericalHarmonicsGravityFieldCoefficient_ : ℝ
  j3SphericalHarmonicsGravityFieldCoefficient_ : ℝ
  j4SphericalHarmonicsGravityFieldCoefficient_ : ℝ

namespace SphericalHarmonicsGravityField

/-- Modelled from the spec for the base-class part: the `GravityFieldModel`
base constructor is not among the sources at hand; per the spec the origin
position "defaults to the zero vector if never set" and the gravitational
parameter's "default/uninitialized is treated as invalid (zero or negative is
nonsensical but not validated)".  The derived-class member initializers follow
the source: `degreeOfExpansion_( -0 )`, `orderOfExpansion_( -0 )` (unsigned,
hence 0) and `-0.0` for the radius and the three J coefficients (negative
floating zero, equal to 0 as a real number). -/
def defaultConstructed : SphericalHarmonicsGravityField where
  gravitationalParameter_ := 0
  positionOfOrigin_ := 0
  relativePosition_ := 0
  degreeOfExpansion_ := 0
  orderOfExpansion_ := 0
  referenceRadius_ := -0.0
  j2SphericalHarmonicsGravityFieldCoefficient_ := -0.0
  j3SphericalHarmonicsGravityFieldCoefficient_ := -0.0
  j4SphericalHarmonicsGravityFieldCoefficient_ := -0.0

/-- `setPredefinedSphericalHarmonicsGravityFieldSettings`: the `switch` over
the predefined-body enumeration.  The second component of the result is the
text printed to `cerr` (`none` when nothing is printed). -/
def setPredefinedSphericalHarmonicsGravityFieldSettings
    (field : SphericalHarmonicsGravityField)
    (bodyWithPredefinedSphericalHarmonicsGravityField :
      BodiesWithPredefinedSphericalHarmonicsGravityFields) :
    SphericalHarmonicsGravityField × Option String :=
  match bodyWithPredefinedSphericalHarmonicsGravityField with
  | .earthWorldGeodeticSystem72 =>
      ({ field with
          gravitationalParameter_ := 398600.8e9
          referenceRadius_ := 6378.135e3
          j2SphericalHarmonicsGravityFieldCoefficient_ := 0.001082616
          j3SphericalHarmonicsGravityFieldCoefficient_ := -0.00000253881
          j4SphericalHarmonicsGravityFieldCoefficient_ := -0.00000165597 },
        none)
  | .earthWorldGeodeticSystem84 =>
      ({ field with
          gravitationalParameter_ := 398600.4418e9
          referenceRadius_ := 6378.137e3
          j2SphericalHarmonicsGravityFieldCoefficient_ := 0.00108262998905
          j3SphericalHarmonicsGravityFieldCoefficient_ := -0.00000253215306
          j4SphericalHarmonicsGravityFieldCoefficient_ := -0.00000161098761 },
        none)
  | .unrecognizedBody _ =>
      (field,
        some "Desired predefined spherical harmonics gravity field does not exist.")

/-- `setReferenceRadius`. -/
def setReferenceRadius (field : SphericalHarmonicsGravityField)
    (referenceRadius : ℝ) : SphericalHarmonicsGravityField :=
  { field with referenceRadius_ := referenceRadius }

/-- `setDegreeOfExpansion` (argument is `unsigned int` in the source). -/
def setDegreeOfExpansion (field : SphericalHarmonicsGravityField)
    (degreeOfExpansion : ℕ) : SphericalHarmonicsGravityField :=
  { field with degreeOfExpansion_ := degreeOfExpansion }

/-- `setOrderOfExpansion` (argument is `unsigned int` in the source). -/
def setOrderOfExpansion (field : SphericalHarmonicsGravityField)
    (orderOfExpansion : ℕ) : SphericalHarmonicsGravityField :=
  { field with orderOfExpansion_ := orderOfExpansion }

/-- `getReferenceRadius`. -/
def getReferenceRadius (field : SphericalHarmonicsGravityField) : ℝ :=
  field.referenceRadius_

/-- `getDegreeOfExpansion` (returns `double` in the source: the stored
unsigned integer widened to a floating value). -/
def getDegreeOfExpansion (field : SphericalHarmonicsGravityField) : ℝ :=
  (field.degreeOfExpansion_ : ℝ)

/-- `getOrderOfExpansion` (returns `double` in the source). -/
def getOrderOfExpansion (field : SphericalHarmonicsGravityField) : ℝ :=
  (field.orderOfExpansion_ : ℝ)

/-- `getPotential`: writes `relativePosition_`, then returns
`gravitationalParameter_ / relativePosition_.norm()`. -/
noncomputable def getPotential (field : SphericalHarmonicsGravityField)
    (pointerToPosition : Fin 3 → ℝ) : ℝ × SphericalHarmonicsGravityField :=
  let relativePosition : Fin 3 → ℝ := pointerToPosition - field.positionOfOrigin_
  (field.gravitationalParameter_ / vectorNorm relativePosition,
   { field with relativePosition_ := relativePosition })

/-- `getGradientOfPotential`: writes `relativePosition_`, then returns
`-gravitationalParameter_ * relativePosition_ / raiseToIntegerPower(
relativePosition_.norm(), 3)` (componentwise scalar arithmetic). -/
noncomputable def getGradientOfPotential (field : SphericalHarmonicsGravityField)
    (pointerToPosition : Fin 3 → ℝ) :
    (Fin 3 → ℝ) × SphericalHarmonicsGravityField :=
  let relativePosition : Fin 3 → ℝ := pointerToPosition - field.positionOfOrigin_
  (fun i => -field.gravitationalParameter_ * relativePosition i /
      raiseToIntegerPower (vectorNorm relativePosition) 3,
   { field with relativePosition_ := relativePosition })

/-- `getGradientTensorOfPotential`: writes `relativePosition_`, builds a 3x3
identity matrix, then returns `gravitationalParameter_ /
raiseToIntegerPower(relativePosition_.norm(), 5) * (3.0 * relativePosition_ *
relativePosition_.transpose() - relativePosition_.squaredNorm() *
identityMatrix)`. -/
noncomputable def getGradientTensorOfPotential
    (field : SphericalHarmonicsGravityField) (pointerToPosition : Fin 3 → ℝ) :
    Matrix (Fin 3) (Fin 3) ℝ × SphericalHarmonicsGravityField :=
  let identityMatrix : Matrix (Fin 3) (Fin 3) ℝ := 1
  let relativePosition : Fin 3 → ℝ := pointerToPosition - field.positionOfOrigin_
  ((field.gravitationalParameter_ /
      raiseToIntegerPower (vectorNorm relativePosition) 5) •
    ((3 : ℝ) • Matrix.vecMulVec relativePosition relativePosition
      - squaredNorm relativePosition • identityMatrix),
   { field with relativePosition_ := relativePosition })

end SphericalHarmonicsGravityField

/-! ## Helper lemmas on the vector norm -/

theorem squaredNorm_nonneg (v : Fin 3 → ℝ) : 0 ≤ squaredNorm v := by
  unfold squaredNorm
  nlinarith [mul_self_nonneg (v 0), mul_self_nonneg (v 1), mul_self_nonneg (v 2)]

theorem squaredNorm_pos_of_ne_zero {v : Fin 3 → ℝ} (h : v ≠ 0) :
    0 < squaredNorm v := by
  rcases lt_or_eq_of_le (squaredNorm_nonneg v) with hlt | heq
  · exact hlt
  · exfalso
    apply h
    have heq' : v 0 * v 0 + v 1 * v 1 + v 2 * v 2 = 0 := by
      unfold squaredNorm at heq
      linarith
    have h0 : v 0 * v 0 = 0 := by
      nlinarith [mul_self_nonneg (v 0), mul_self_nonneg (v 1), mul_self_nonneg (v 2)]
    have h1 : v 1 * v 1 = 0 := by
      nlinarith [mul_self_nonneg (v 0), mul_self_nonneg (v 1), mul_self_nonneg (v 2)]
    have h2 : v 2 * v 2 = 0 := by
      nlinarith [mul_self_nonneg (v 0), mul_self_nonneg (v 1), mul_self_nonneg (v 2)]
    funext i
    fin_cases i
    · exact mul_self_eq_zero.mp h0
    · exact mul_self_eq_zero.mp h1
    · exact mul_self_eq_zero.mp h2

theorem vectorNorm_pos_of_ne_zero {v : Fin 3 → ℝ} (h : v ≠ 0) :
    0 < vectorNorm v :=
  Real.sqrt_pos.mpr (squaredNorm_pos_of_ne_zero h)

theorem sq_vectorNorm (v : Fin 3 → ℝ) : vectorNorm v ^ 2 = squaredNorm v :=
  Real.sq_sqrt (squaredNorm_nonneg v)

theorem squaredNorm_smul (c : ℝ) (v : Fin 3 → ℝ) :
    squaredNorm (c • v) = c ^ 2 * squaredNorm v := by
  simp only [squaredNorm, Pi.smul_apply, smul_eq_mul]
  ring

theorem vectorNorm_smul (c : ℝ) (v : Fin 3 → ℝ) :
    vectorNorm (c • v) = |c| * vectorNorm v := by
  unfold vectorNorm
  rw [squaredNorm_smul, Real.sqrt_mul (sq_nonneg c), Real.sqrt_sq_eq_abs]

open SphericalHarmonicsGravityField

/-! ## Claim theorems -/

/-- C1: for every query position and origin with nonzero relative position,
`getPotential` returns the gravitational parameter divided by the Euclidean
norm of `position - originPosition`, and the result is unchanged under
arbitrary modification of the harmonic coefficients, degree, order and
reference radius. -/
theorem getPotential_pointMass (field : SphericalHarmonicsGravityField)
    (position : Fin 3 → ℝ) (h : position - field.positionOfOrigin_ ≠ 0) :
    (getPotential field position).1 =
      field.gravitationalParameter_ /
        vectorNorm (position - field.positionOfOrigin_) ∧
    ∀ j2 j3 j4 : ℝ, ∀ deg ord : ℕ, ∀ radius : ℝ,
      (getPotential
        { field with
            j2SphericalHarmonicsGravityFieldCoefficient_ := j2
            j3SphericalHarmonicsGravityFieldCoefficient_ := j3
            j4SphericalHarmonicsGravityFieldCoefficient_ := j4
            degreeOfExpansion_ := deg
            orderOfExpansion_ := ord
            referenceRadius_ := radius } position).1 =
        (getPotential field position).1 :=
  ⟨rfl, fun _ _ _ _ _ _ => rfl⟩

/-- Witness for C1 at a concrete state and position. -/
theorem getPotential_pointMass_witness :
    ((![1, 0, 0] : Fin 3 → ℝ) - defaultConstructed.positionOfOrigin_ ≠ 0) ∧
    ((getPotential defaultConstructed ![1, 0, 0]).1 =
      defaultConstructed.gravitationalParameter_ /
        vectorNorm ((![1, 0, 0] : Fin 3 → ℝ) - defaultConstructed.positionOfOrigin_) ∧
    ∀ j2 j3 j4 : ℝ, ∀ deg ord : ℕ, ∀ radius : ℝ,
      (getPotential
        { defaultConstructed with
            j2SphericalHarmonicsGravityFieldCoefficient_ := j2
            j3SphericalHarmonicsGravityFieldCoefficient_ := j3
            j4SphericalHarmonicsGravityFieldCoefficient_ := j4
            degreeOfExpansion_ := deg
            orderOfExpansion_ := ord
            referenceRadius_ := radius } ![1, 0, 0]).1 =
        (getPotential defaultConstructed ![1, 0, 0]).1) := by
  have h : (![1, 0, 0] : Fin 3 → ℝ) - defaultConstructed.positionOfOrigin_ ≠ 0 := by
    intro hc
    have h0 := congrFun hc 0
    simp [defaultConstructed] at h0
  exact ⟨h, getPotential_pointMass defaultConstructed ![1, 0, 0] h⟩

/-- C6: the WGS-84 preset stamps in its five tabulated constants, so that
`getReferenceRadius` immediately afterwards returns exactly `6378137.0`; the
WGS-72 preset analogously stamps in its five constants. -/
theorem setPredefined_wgs_constants (field : SphericalHarmonicsGravityField) :
    ((setPredefinedSphericalHarmonicsGravityFieldSettings field
        .earthWorldGeodeticSystem84).1.gravitationalParameter_ = 398600.4418e9 ∧
     (setPredefinedSphericalHarmonicsGravityFieldSettings field
        .earthWorldGeodeticSystem84).1.referenceRadius_ = 6378.137e3 ∧
     (setPredefinedSphericalHarmonicsGravityFieldSettings field
        .earthWorldGeodeticSystem84).1.j2SphericalHarmonicsGravityFieldCoefficient_
        = 0.00108262998905 ∧
     (setPredefinedSphericalHarmonicsGravityFieldSettings field
        .earthWorldGeodeticSystem84).1.j3SphericalHarmonicsGravityFieldCoefficient_
        = -0.00000253215306 ∧
     (setPredefinedSphericalHarmonicsGravityFieldSettings field
        .earthWorldGeodeticSystem84).1.j4SphericalHarmonicsGravityFieldCoefficient_
        = -0.00000161098761 ∧
     getReferenceRadius
        (setPredefinedSphericalHarmonicsGravityFieldSettings field
          .earthWorldGeodeticSystem84).1 = 6378137.0) ∧
    ((setPredefinedSphericalHarmonicsGravityFieldSettings field
        .earthWorldGeodeticSystem72).1.gravitationalParameter_ = 398600.8e9 ∧
     (setPredefinedSphericalHarmonicsGravityFieldSettings field
        .earthWorldGeodeticSystem72).1.referenceRadius_ = 6378.135e3 ∧
     (setPredefinedSphericalHarmonicsGravityFieldSettings field
        .earthWorldGeodeticSystem72).1.j2SphericalHarmonicsGravityFieldCoefficient_
        = 0.001082616 ∧
     (setPredefinedSphericalHarmonicsGravityFieldSettings field
        .earthWorldGeodeticSystem72).1.j3SphericalHarmonicsGravityFieldCoefficient_
        = -0.00000253881 ∧
     (setPredefinedSphericalHarmonicsGravityFieldSettings field
        .earthWorldGeodeticSystem72).1.j4SphericalHarmonicsGravityFieldCoefficient_
        = -0.00000165597) := by
  refine ⟨⟨rfl, rfl, rfl, rfl, rfl, ?_⟩, rfl, rfl, rfl, rfl, rfl⟩
  show (6378.137e3 : ℝ) = 6378137.0
  norm_num

/-- C7: each of the three plain setters unconditionally overwrites exactly
its own field (any real value is accepted for the radius, negative ones
included) and leaves every other field of the model unchanged. -/
theorem setters_targetedFieldOnly (field : SphericalHarmonicsGravityField)
    (radius : ℝ) (deg ord : ℕ) :
    setReferenceRadius field radius = { field with referenceRadius_ := radius } ∧
    setDegreeOfExpansion field deg = { field with degreeOfExpansion_ := deg } ∧
    setOrderOfExpansion field ord = { field with orderOfExpansion_ := ord } :=
  ⟨rfl, rfl, rfl⟩

/-- C8: each evaluation call leaves every persistent field unchanged except
the `relativePosition_` scratch value, which it overwrites with
`position - originPosition`. -/
theorem evaluation_mutates_only_relativePosition
    (field : SphericalHarmonicsGravityField) (position : Fin 3 → ℝ) :
    (getPotential field position).2 =
      { field with relativePosition_ := position - field.positionOfOrigin_ } ∧
    (getGradientOfPotential field position).2 =
      { field with relativePosition_ := position - field.positionOfOrigin_ } ∧
    (getGradientTensorOfPotential field position).2 =
      { field with relativePosition_ := position - field.positionOfOrigin_ } :=
  ⟨rfl, rfl, rfl⟩

theorem vecMulVec_self_transpose (v : Fin 3 → ℝ) :
    Matrix.transpose (Matrix.vecMulVec v v) = Matrix.vecMulVec v v := by
  ext i j
  simp only [Matrix.transpose_apply, Matrix.vecMulVec_apply]
  ring

theorem trace_vecMulVec_self (v : Fin 3 → ℝ) :
    Matrix.trace (Matrix.vecMulVec v v) = squaredNorm v := by
  simp only [Matrix.trace, Matrix.diag, Matrix.vecMulVec_apply, Fin.sum_univ_three,
    squaredNorm]

/-- C2: for nonzero relative position `r`, `getGradientOfPotential` returns
`-gravitationalParameter * r / ||r||^3`; when the gravitational parameter is
positive the result is a negative multiple of `r` (it points from the query
position toward the origin) and its norm is `gravitationalParameter /
||r||^2`. -/
theorem getGradientOfPotential_formula (field : SphericalHarmonicsGravityField)
    (position : Fin 3 → ℝ) (h : position - field.positionOfOrigin_ ≠ 0) :
    (getGradientOfPotential field position).1 =
      (-(field.gravitationalParameter_ /
          vectorNorm (position - field.positionOfOrigin_) ^ 3)) •
        (position - field.positionOfOrigin_) ∧
    (0 < field.gravitationalParameter_ →
      (∃ c : ℝ, c < 0 ∧
        (getGradientOfPotential field position).1 =
          c • (position - field.positionOfOrigin_)) ∧
      vectorNorm (getGradientOfPotential field position).1 =
        field.gravitationalParameter_ /
          vectorNorm (position - field.positionOfOrigin_) ^ 2) := by
  have hn : 0 < vectorNorm (position - field.positionOfOrigin_) :=
    vectorNorm_pos_of_ne_zero h
  have heq : (getGradientOfPotential field position).1 =
      (-(field.gravitationalParameter_ /
          vectorNorm (position - field.positionOfOrigin_) ^ 3)) •
        (position - field.positionOfOrigin_) := by
    funext i
    simp only [getGradientOfPotential, raiseToIntegerPower, Pi.smul_apply,
      smul_eq_mul]
    ring
  refine ⟨heq, fun hg => ?_⟩
  have hcneg : 0 < field.gravitationalParameter_ /
      vectorNorm (position - field.positionOfOrigin_) ^ 3 :=
    div_pos hg (pow_pos hn 3)
  refine ⟨⟨-(field.gravitationalParameter_ /
      vectorNorm (position - field.positionOfOrigin_) ^ 3),
    by linarith, heq⟩, ?_⟩
  rw [heq, vectorNorm_smul, abs_neg, abs_of_pos hcneg]
  field_simp
  ring

/-- Witness for C2 at a concrete state with positive gravitational parameter
and a concrete position. -/
theorem getGradientOfPotential_formula_witness :
    ((![0, 1, 0] : Fin 3 → ℝ) -
      ({ defaultConstructed with gravitationalParameter_ := 1 } :
        SphericalHarmonicsGravityField).positionOfOrigin_ ≠ 0) ∧
    ((getGradientOfPotential
        { defaultConstructed with gravitationalParameter_ := 1 } ![0, 1, 0]).1 =
      (-(({ defaultConstructed with gravitationalParameter_ := 1 } :
            SphericalHarmonicsGravityField).gravitationalParameter_ /
          vectorNorm ((![0, 1, 0] : Fin 3 → ℝ) -
            ({ defaultConstructed with gravitationalParameter_ := 1 } :
              SphericalHarmonicsGravityField).positionOfOrigin_) ^ 3)) •
        ((![0, 1, 0] : Fin 3 → ℝ) -
          ({ defaultConstructed with gravitationalParameter_ := 1 } :
            SphericalHarmonicsGravityField).positionOfOrigin_) ∧
    (0 < ({ defaultConstructed with gravitationalParameter_ := 1 } :
        SphericalHarmonicsGravityField).gravitationalParameter_ →
      (∃ c : ℝ, c < 0 ∧
        (getGradientOfPotential
          { defaultConstructed with gravitationalParameter_ := 1 } ![0, 1, 0]).1 =
          c • ((![0, 1, 0] : Fin 3 → ℝ) -
            ({ defaultConstructed with gravitationalParameter_ := 1 } :
              SphericalHarmonicsGravityField).positionOfOrigin_)) ∧
      vectorNorm (getGradientOfPotential
          { defaultConstructed with gravitationalParameter_ := 1 } ![0, 1, 0]).1 =
        ({ defaultConstructed with gravitationalParameter_ := 1 } :
            SphericalHarmonicsGravityField).gravitationalParameter_ /
          vectorNorm ((![0, 1, 0] : Fin 3 → ℝ) -
            ({ defaultConstructed with gravitationalParameter_ := 1 } :
              SphericalHarmonicsGravityField).positionOfOrigin_) ^ 2)) := by
  have h : (![0, 1, 0] : Fin 3 → ℝ) -
      ({ defaultConstructed with gravitationalParameter_ := 1 } :
        SphericalHarmonicsGravityField).positionOfOrigin_ ≠ 0 := by
    intro hc
    have h1 := congrFun hc 1
    simp [defaultConstructed] at h1
  exact ⟨h, getGradientOfPotential_formula
    { defaultConstructed with gravitationalParameter_ := 1 } ![0, 1, 0] h⟩

/-- C3: for nonzero relative position `r`, `getGradientTensorOfPotential`
returns `gravitationalParameter / ||r||^5 * (3 * r * rᵀ - ||r||^2 * I)` with
`I` the 3x3 identity matrix. -/
theorem getGradientTensorOfPotential_formula
    (field : SphericalHarmonicsGravityField) (position : Fin 3 → ℝ)
    (h : position - field.positionOfOrigin_ ≠ 0) :
    (getGradientTensorOfPotential field position).1 =
      (field.gravitationalParameter_ /
          vectorNorm (position - field.positionOfOrigin_) ^ 5) •
        ((3 : ℝ) • Matrix.vecMulVec (position - field.positionOfOrigin_)
            (position - field.positionOfOrigin_)
          - vectorNorm (position - field.positionOfOrigin_) ^ 2 •
            (1 : Matrix (Fin 3) (Fin 3) ℝ)) := by
  simp only [getGradientTensorOfPotential, raiseToIntegerPower, sq_vectorNorm]

/-- Witness for C3 at a concrete state and position. -/
theorem getGradientTensorOfPotential_formula_witness :
    ((![0, 0, 2] : Fin 3 → ℝ) - defaultConstructed.positionOfOrigin_ ≠ 0) ∧
    (getGradientTensorOfPotential defaultConstructed ![0, 0, 2]).1 =
      (defaultConstructed.gravitationalParameter_ /
          vectorNorm ((![0, 0, 2] : Fin 3 → ℝ) -
            defaultConstructed.positionOfOrigin_) ^ 5) •
        ((3 : ℝ) • Matrix.vecMulVec
            ((![0, 0, 2] : Fin 3 → ℝ) - defaultConstructed.positionOfOrigin_)
            ((![0, 0, 2] : Fin 3 → ℝ) - defaultConstructed.positionOfOrigin_)
          - vectorNorm ((![0, 0, 2] : Fin 3 → ℝ) -
              defaultConstructed.positionOfOrigin_) ^ 2 •
            (1 : Matrix (Fin 3) (Fin 3) ℝ)) := by
  have h : (![0, 0, 2] : Fin 3 → ℝ) - defaultConstructed.positionOfOrigin_ ≠ 0 := by
    intro hc
    have h2 := congrFun hc 2
    simp [defaultConstructed] at h2
  exact ⟨h, getGradientTensorOfPotential_formula defaultConstructed ![0, 0, 2] h⟩

/-- C4: for nonzero relative position, the gradient tensor is symmetric
(equal to its transpose) and has trace exactly zero. -/
theorem getGradientTensorOfPotential_symm_traceless
    (field : SphericalHarmonicsGravityField) (position : Fin 3 → ℝ)
    (h : position - field.positionOfOrigin_ ≠ 0) :
    Matrix.transpose (getGradientTensorOfPotential field position).1 =
      (getGradientTensorOfPotential field position).1 ∧
    Matrix.trace (getGradientTensorOfPotential field position).1 = 0 := by
  constructor
  · simp only [getGradientTensorOfPotential, Matrix.transpose_smul,
      Matrix.transpose_sub, vecMulVec_self_transpose, Matrix.transpose_one]
  · simp only [getGradientTensorOfPotential, Matrix.trace_smul, Matrix.trace_sub,
      trace_vecMulVec_self, Matrix.trace_one, Fintype.card_fin, smul_eq_mul,
      Nat.cast_ofNat]
    ring

/-- Witness for C4 at a concrete state and position. -/
theorem getGradientTensorOfPotential_symm_traceless_witness :
    ((![3, 4, 0] : Fin 3 → ℝ) - defaultConstructed.positionOfOrigin_ ≠ 0) ∧
    ((Matrix.transpose (getGradientTensorOfPotential defaultConstructed ![3, 4, 0]).1) =
      (getGradientTensorOfPotential defaultConstructed ![3, 4, 0]).1 ∧
    Matrix.trace (getGradientTensorOfPotential defaultConstructed ![3, 4, 0]).1
      = 0) := by
  have h : (![3, 4, 0] : Fin 3 → ℝ) - defaultConstructed.positionOfOrigin_ ≠ 0 := by
    intro hc
    have h0 := congrFun hc 0
    simp [defaultConstructed] at h0
  exact ⟨h, getGradientTensorOfPotential_symm_traceless defaultConstructed
    ![3, 4, 0] h⟩

/-- C5: for an identifier that is neither the WGS-72 nor the WGS-84 preset,
`setPredefinedSphericalHarmonicsGravityFieldSettings` leaves the whole state
unchanged and reports a descriptive error message. -/
theorem setPredefined_unrecognized_noMutation
    (field : SphericalHarmonicsGravityField)
    (body : BodiesWithPredefinedSphericalHarmonicsGravityFields)
    (h72 : body ≠ .earthWorldGeodeticSystem72)
    (h84 : body ≠ .earthWorldGeodeticSystem84) :
    (setPredefinedSphericalHarmonicsGravityFieldSettings field body).1 = field ∧
    (setPredefinedSphericalHarmonicsGravityFieldSettings field body).2 =
      some "Desired predefined spherical harmonics gravity field does not exist." := by
  cases body with
  | earthWorldGeodeticSystem72 => exact absurd rfl h72
  | earthWorldGeodeticSystem84 => exact absurd rfl h84
  | unrecognizedBody tag => exact ⟨rfl, rfl⟩

/-- Witness for C5 at a concrete unrecognized identifier. -/
theorem setPredefined_unrecognized_noMutation_witness :
    ((BodiesWithPredefinedSphericalHarmonicsGravityFields.unrecognizedBody 5) ≠
        .earthWorldGeodeticSystem72) ∧
    ((BodiesWithPredefinedSphericalHarmonicsGravityFields.unrecognizedBody 5) ≠
        .earthWorldGeodeticSystem84) ∧
    ((setPredefinedSphericalHarmonicsGravityFieldSettings defaultConstructed
        (.unrecognizedBody 5)).1 = defaultConstructed ∧
     (setPredefinedSphericalHarmonicsGravityFieldSettings defaultConstructed
        (.unrecognizedBody 5)).2 =
       some "Desired predefined spherical harmonics gravity field does not exist.") :=
  ⟨by decide, by decide,
   setPredefined_unrecognized_noMutation defaultConstructed
     (.unrecognizedBody 5) (by decide) (by decide)⟩

/-- C9: the three evaluation results depend only on the gravitational
parameter and the origin position: two states agreeing on those two fields
produce identical results for every query position, whatever their J
coefficients, degree, order, reference radius (and scratch value). -/
theorem evaluation_independent_of_unusedFields
    (s t : SphericalHarmonicsGravityField) (position : Fin 3 → ℝ)
    (hg : s.gravitationalParameter_ = t.gravitationalParameter_)
    (ho : s.positionOfOrigin_ = t.positionOfOrigin_) :
    (getPotential s position).1 = (getPotential t position).1 ∧
    (getGradientOfPotential s position).1 =
      (getGradientOfPotential t position).1 ∧
    (getGradientTensorOfPotential s position).1 =
      (getGradientTensorOfPotential t position).1 := by
  refine ⟨?_, ?_, ?_⟩ <;> simp only [getPotential, getGradientOfPotential,
    getGradientTensorOfPotential, hg, ho]

/-- Witness for C9: two concrete states sharing the gravitational parameter
and origin but differing in every unused field. -/
theorem evaluation_independent_of_unusedFields_witness :
    (defaultConstructed.gravitationalParameter_ =
      ({ defaultConstructed with
          j2SphericalHarmonicsGravityFieldCoefficient_ := 1
          j3SphericalHarmonicsGravityFieldCoefficient_ := 2
          j4SphericalHarmonicsGravityFieldCoefficient_ := 3
          degreeOfExpansion_ := 4
          orderOfExpansion_ := 5
          referenceRadius_ := 6 } :
        SphericalHarmonicsGravityField).gravitationalParameter_) ∧
    (defaultConstructed.positionOfOrigin_ =
      ({ defaultConstructed with
          j2SphericalHarmonicsGravityFieldCoefficient_ := 1
          j3SphericalHarmonicsGravityFieldCoefficient_ := 2
          j4SphericalHarmonicsGravityFieldCoefficient_ := 3
          degreeOfExpansion_ := 4
          orderOfExpansion_ := 5
          referenceRadius_ := 6 } :
        SphericalHarmonicsGravityField).positionOfOrigin_) ∧
    ((getPotential defaultConstructed ![1, 2, 3]).1 =
      (getPotential
        { defaultConstructed with
            j2SphericalHarmonicsGravityFieldCoefficient_ := 1
            j3SphericalHarmonicsGravityFieldCoefficient_ := 2
            j4SphericalHarmonicsGravityFieldCoefficient_ := 3
            degreeOfExpansion_ := 4
            orderOfExpansion_ := 5
            referenceRadius_ := 6 } ![1, 2, 3]).1 ∧
     (getGradientOfPotential defaultConstructed ![1, 2, 3]).1 =
      (getGradientOfPotential
        { defaultConstructed with
            j2SphericalHarmonicsGravityFieldCoefficient_ := 1
            j3SphericalHarmonicsGravityFieldCoefficient_ := 2
            j4SphericalHarmonicsGravityFieldCoefficient_ := 3
            degreeOfExpansion_ := 4
            orderOfExpansion_ := 5
            referenceRadius_ := 6 } ![1, 2, 3]).1 ∧
     (getGradientTensorOfPotential defaultConstructed ![1, 2, 3]).1 =
      (getGradientTensorOfPotential
        { defaultConstructed with
            j2SphericalHarmonicsGravityFieldCoefficient_ := 1
            j3SphericalHarmonicsGravityFieldCoefficient_ := 2
            j4SphericalHarmonicsGravityFieldCoefficient_ := 3
            degreeOfExpansion_ := 4
            orderOfExpansion_ := 5
            referenceRadius_ := 6 } ![1, 2, 3]).1) :=
  ⟨rfl, rfl,
   evaluation_independent_of_unusedFields defaultConstructed _ ![1, 2, 3] rfl rfl⟩

/-- C10 counterexample: the default-constructed values are not
distinguishable from validly configured values — the degree of expansion
(initialized with `-0`, i.e. `0` as an unsigned integer) equals the value
held after a valid `setDegreeOfExpansion(0)` call, and the reference radius
(initialized with `-0.0`, equal to `0.0`) equals the value held after a
valid `setReferenceRadius(0.0)` call. -/
theorem defaultConstructed_sentinel_counterexample :
    defaultConstructed.degreeOfExpansion_ =
      (setDegreeOfExpansion defaultConstructed 0).degreeOfExpansion_ ∧
    defaultConstructed.referenceRadius_ =
      (setReferenceRadius defaultConstructed 0.0).referenceRadius_ := by
  constructor
  · rfl
  · show (-0.0 : ℝ) = (0.0 : ℝ)
    norm_num

/-- C10 amended: after default construction the degree of expansion, order
of expansion, reference radius and J2, J3, J4 coefficients all equal zero
(the source initializes the integers with `-0` and the doubles with `-0.0`);
zero is a conventional "unset" marker here, not a value distinguishable from
every validly configured one. -/
theorem defaultConstructed_fields_zero :
    defaultConstructed.degreeOfExpansion_ = 0 ∧
    defaultConstructed.orderOfExpansion_ = 0 ∧
    defaultConstructed.referenceRadius_ = 0 ∧
    defaultConstructed.j2SphericalHarmonicsGravityFieldCoefficient_ = 0 ∧
    defaultConstructed.j3SphericalHarmonicsGravityFieldCoefficient_ = 0 ∧
    defaultConstructed.j4SphericalHarmonicsGravityFieldCoefficient_ = 0 := by
  refine ⟨rfl, rfl, ?_, ?_, ?_, ?_⟩ <;> · show (-0.0 : ℝ) = 0; norm_num

end Tudat
